import Mathlib

/-!
Shallow embedding of the MAPSHOCK analysis-pipeline core (context agent,
research agent, orchestration agent) together with proofs of the spec's
testable properties.  Python strings are modelled as Lean `String`
(a packed `List Char`), Python `float` arithmetic on small exact values as
`ℚ`, Python dictionaries with a fixed key set as structures, and fallible
operations as `Except`/`Option` values.  Collaborator calls (HTTP search,
LLM, protocol selector) are passed in as explicit outcome parameters.
-/

/-! ### Basic Python string operations -/

/-- Models Python `str.lower()` (ASCII case folding, which is all the
keyword vocabularies need). -/
def pyLower (s : String) : String := ⟨s.data.map Char.toLower⟩

/-- Boolean prefix test on character lists. -/
def isPrefixB : List Char → List Char → Bool
  | [], _ => true
  | _ :: _, [] => false
  | a :: as, b :: bs => a == b && isPrefixB as bs

/-- Boolean contiguous-substring test on character lists; `isInfixB n h`
models Python `n in h` for strings. -/
def isInfixB (needle : List Char) (hay : List Char) : Bool :=
  match hay with
  | [] => needle.isEmpty
  | _ :: rest => isPrefixB needle hay || isInfixB needle rest

/-- Models Python `sub in s` (substring containment). -/
def pyIn (sub s : String) : Bool := isInfixB sub.data s.data

/-- Models Python `str.split()` with no argument: split on whitespace runs,
discarding empty pieces. -/
def pySplit (s : String) : List String :=
  (s.split Char.isWhitespace).filter (fun w => w ≠ "")

/-! ### EntitySet and `extract_search_entities` (context_agent.py 197-254) -/

/-- Fixed category map produced by the entity extractor; the Python code
builds a dict that always carries exactly these six keys. -/
structure EntitySet where
  companies : List String
  industries : List String
  competitors : List String
  products : List String
  markets : List String
  technologies : List String
deriving DecidableEq, Repr

/-- Industry keyword vocabulary of `extract_search_entities`. -/
def industry_keywords : List String :=
  ["technology", "tech", "ai", "artificial intelligence", "software", "fintech",
   "healthcare", "pharmaceutical", "automotive", "retail", "e-commerce",
   "manufacturing", "construction", "energy", "oil", "gas", "banking",
   "insurance", "telecommunications", "media", "entertainment", "gaming"]

/-- Market keyword vocabulary of `extract_search_entities`. -/
def market_keywords : List String :=
  ["market", "europe", "asia", "america", "global", "domestic", "international"]

/-- Technology keyword vocabulary of `extract_search_entities`. -/
def tech_keywords : List String :=
  ["cloud", "mobile", "web", "platform", "api", "blockchain", "ml", "data"]

/-- Word consisting of an upper-case letter followed by at least one more
letter: one word of the capitalized-phrase company pattern
`[A-Z][a-zA-Z]+(\s+[A-Z][a-zA-Z]+)*`. -/
def isCapWord (w : List Char) : Bool :=
  match w with
  | c :: rest => c.isUpper && !rest.isEmpty && rest.all Char.isAlpha
  | [] => false

/-- Word matching the acronym pattern `[A-Z]{2,10}`. -/
def isAcronym (w : List Char) : Bool :=
  w.all Char.isUpper && decide (2 ≤ w.length) && decide (w.length ≤ 10)

/-- Accumulator-passing scan that joins maximal runs of capitalized words;
models the matches of the capitalized-phrase regex over the
whitespace-tokenized input text. -/
def capRunsAux : List String → List String → List String
  | acc, [] => if acc.isEmpty then [] else [String.intercalate " " acc.reverse]
  | acc, w :: ws =>
    if isCapWord w.data then capRunsAux (w :: acc) ws
    else (if acc.isEmpty then [] else [String.intercalate " " acc.reverse])
          ++ capRunsAux [] ws

/-- Matches of the capitalized-phrase company pattern. -/
def capRuns (ws : List String) : List String := capRunsAux [] ws

/-- Models `extract_search_entities` (context_agent.py 197-254): keyword
containment over the lower-cased text for industries/markets/technologies,
the two structural company patterns over the raw text (first 3 matches
per pattern), and per-category `list(set(...))[:5]` modelled as
first-occurrence dedup followed by `take 5`.  The competitors and products
categories are never populated by the source. -/
def extract_search_entities (user_input : String) : EntitySet :=
  let text := pyLower user_input
  let toks := pySplit user_input
  { companies :=
      (((capRuns toks).take 3) ++ ((toks.filter (fun w => isAcronym w.data)).take 3)).dedup.take 5
    industries := ((industry_keywords.filter (fun k => pyIn k text)).dedup).take 5
    competitors := ([] : List String)
    products := ([] : List String)
    markets := ((market_keywords.filter (fun k => pyIn k text)).dedup).take 5
    technologies := ((tech_keywords.filter (fun k => pyIn k text)).dedup).take 5 }

/-! ### QueryPlan and `generate_search_queries` (context_agent.py 256-318) -/

/-- Query plan: the three fixed buckets of the source's `queries` dict. -/
structure QueryPlan where
  company : List String
  industry : List String
  competition : List String
deriving DecidableEq, Repr

/-- Fuel-indexed unrolling of the source's
`while len(queries[c]) < 5: append a; append b` loop. -/
def padPairFuel : ℕ → List String → String → String → List String
  | 0, qs, _, _ => qs
  | n + 1, qs, a, b => if qs.length < 5 then padPairFuel n (qs ++ [a, b]) a b else qs

/-- The pad-with-two-queries loop.  Fuel 3 is always enough: each
iteration grows the bucket by 2, so at most 3 iterations are ever taken
before the length reaches 5 (see `padPair_loop_eq`). -/
def padPair (qs : List String) (a b : String) : List String :=
  padPairFuel 3 qs a b

/-- Fuel-indexed unrolling of the source's
`while len(queries["competition"]) < 5: append a; append b; append c` loop. -/
def padTripleFuel : ℕ → List String → String → String → String → List String
  | 0, qs, _, _, _ => qs
  | n + 1, qs, a, b, c =>
    if qs.length < 5 then padTripleFuel n (qs ++ [a, b, c]) a b c else qs

/-- The pad-with-three-queries loop (fuel 2 suffices; see
`padTriple_loop_eq`). -/
def padTriple (qs : List String) (a b c : String) : List String :=
  padTripleFuel 2 qs a b c

/-- Models `generate_search_queries` (context_agent.py 256-318): three
entity-templated queries per company/industry entity (first two entities),
two per competitor entity, then pad each bucket with generic queries built
from the first three input tokens until it holds 5, and truncate to 5. -/
def generate_search_queries (user_input : String) (entities : EntitySet) : QueryPlan :=
  let base_terms := (pySplit user_input).take 3
  let base := String.intercalate " " base_terms
  let companyQs := (entities.companies.take 2).flatMap (fun company =>
    [s!"{company} financial performance 2024",
     s!"{company} market share analysis",
     s!"{company} recent news updates"])
  let companyQs := (padPair companyQs s!"{base} company analysis"
    s!"{base} business model").take 5
  let industryQs := (entities.industries.take 2).flatMap (fun industry =>
    [s!"{industry} industry trends 2024",
     s!"{industry} market size forecast",
     s!"{industry} growth analysis"])
  let industryQs := (padPair industryQs s!"{base} industry overview"
    s!"{base} market trends").take 5
  let competitionQs := (entities.competitors.take 2).flatMap (fun competitor =>
    [s!"{competitor} vs competitors",
     s!"{competitor} competitive analysis"])
  let competitionQs := (padTriple competitionQs s!"{base} competitors analysis"
    s!"{base} competitive landscape"
    s!"{base} market competition").take 5
  { company := companyQs, industry := industryQs, competition := competitionQs }

/-- Total number of queries in a plan. -/
def QueryPlan.total (p : QueryPlan) : ℕ :=
  p.company.length + p.industry.length + p.competition.length

/-! ### Suggestion heuristics (context_agent.py 729-786) -/

/-- Models `_suggest_analysis_type`: first-match keyword rules over the
lower-cased input. -/
def suggestAnalysisType (user_input : String) : String :=
  let t := pyLower user_input
  if ["compete", "competitor", "competitive", "rival"].any (fun w => pyIn w t) then
    "competitive"
  else if ["strategy", "strategic", "long-term", "planning"].any (fun w => pyIn w t) then
    "strategic"
  else if ["market", "industry", "sector"].any (fun w => pyIn w t) then
    "market"
  else if ["technical", "technology", "system"].any (fun w => pyIn w t) then
    "technical"
  else
    "operational"

/-- Models `_suggest_threat_tier`. -/
def suggestThreatTier (user_input : String) : String :=
  let t := pyLower user_input
  if ["urgent", "critical", "emergency", "immediate"].any (fun w => pyIn w t) then
    "21-25"
  else if ["important", "significant", "high priority"].any (fun w => pyIn w t) then
    "11-20"
  else
    "1-10"

/-- Models `_detect_urgency`. -/
def detectUrgency (user_input : String) : String :=
  let t := pyLower user_input
  if ["immediate", "urgent", "asap", "emergency"].any (fun w => pyIn w t) then
    "immediate"
  else if ["soon", "quickly", "fast", "priority"].any (fun w => pyIn w t) then
    "high"
  else
    "medium"

/-! ### Tavily search client (context_agent.py 110-194) -/

/-- One formatted hit of a search response. -/
structure Hit where
  title : String
  url : String
  content : String
  score : ℚ
  published_date : Option String
  source_domain : String
deriving DecidableEq, Repr

/-- The per-query result dictionary produced by the client: either the
formatted response or the empty-with-error shape (the wall-clock
`search_time` field is outside the model). -/
structure SearchResult where
  query : String
  answer : String
  results : List Hit
  result_count : ℕ
  error : Bool
deriving DecidableEq, Repr

/-- One raw item of a Tavily API response body. -/
structure RawItem where
  title : String
  url : String
  content : String
  score : ℚ
  published_date : Option String
deriving DecidableEq, Repr

/-- A Tavily API response body. -/
structure TavilyBody where
  answer : String
  results : List RawItem
deriving DecidableEq, Repr

/-- Outcome of the HTTP POST inside `TavilySearchClient.search`: either a
response with a status code and body, or a thrown fault (connection error,
timeout, ...). -/
inductive HttpOutcome where
  | ok (status : ℕ) (body : TavilyBody)
  | raised (msg : String)
deriving DecidableEq, Repr

/-- An outcome the claim counts as a failed search call: a non-200 status
or a thrown fault. -/
def HttpOutcome.isFailure : HttpOutcome → Bool
  | .ok status _ => status ≠ 200
  | .raised _ => true

/-- Models `_extract_domain` / `urlparse(url).netloc`: the text between
the first `://` and the next `/` (empty when the URL has no scheme
separator, as `urlparse` yields for scheme-less strings). -/
def afterSchemeSep : List Char → Option (List Char)
  | [] => none
  | c :: rest =>
    if isPrefixB "://".data (c :: rest) then some (rest.drop 2) else afterSchemeSep rest

/-- Domain-extraction helper of the client. -/
def extractDomain (url : String) : String :=
  match afterSchemeSep url.data with
  | some rest => ⟨rest.takeWhile (fun c => c ≠ '/')⟩
  | none => ""

/-- Models `_format_search_result` (155-176). -/
def formatSearchResult (body : TavilyBody) (query : String) : SearchResult :=
  { query := query
    answer := body.answer
    results := body.results.map (fun item =>
      { title := item.title
        url := item.url
        content := item.content
        score := item.score
        published_date := item.published_date
        source_domain := extractDomain item.url })
    result_count := body.results.length
    error := false }

/-- Models `_empty_result` (185-194). -/
def emptyResult (query : String) : SearchResult :=
  { query := query, answer := "", results := [], result_count := 0, error := true }

/-- Models `TavilySearchClient.search` (118-153) as a total function of
the HTTP outcome: a 200 response is formatted, any other status and any
thrown fault is converted to the empty-with-error result.  Totality of
this function is the never-raises guarantee. -/
def TavilySearchClient.search (outcome : HttpOutcome) (query : String) : SearchResult :=
  match outcome with
  | .ok status body => if status = 200 then formatSearchResult body query else emptyResult query
  | .raised _ => emptyResult query

/-! ### Search-result analysis (context_agent.py 320-375, 596-628) -/

/-- Bucketed search results, one list of per-query results per category
(the `results_by_category` dict). -/
structure SearchResultsByCat where
  company : List SearchResult
  industry : List SearchResult
  competition : List SearchResult
deriving DecidableEq, Repr

/-- All hits of one category's result batches, in iteration order. -/
def catHits (rs : List SearchResult) : List Hit := rs.flatMap (fun r => r.results)

/-- All hits scanned by `analyze_search_results`, in the dict's insertion
order company, industry, competition. -/
def SearchResultsByCat.hits (sr : SearchResultsByCat) : List Hit :=
  catHits sr.company ++ catHits sr.industry ++ catHits sr.competition

/-- The `total_results` accumulator of `analyze_search_results`. -/
def totalHitCount (sr : SearchResultsByCat) : ℕ := sr.hits.length

/-- The `sources` set's final cardinality: number of distinct source
domains across all hits. -/
def distinctSourceDomainCount (sr : SearchResultsByCat) : ℕ :=
  ((sr.hits.map (fun h => h.source_domain)).dedup).length

/-- The `recent_content` accumulator: hits whose content contains one of
the recency markers. -/
def recentContentCount (sr : SearchResultsByCat) : ℕ :=
  (sr.hits.filter (fun h =>
    ["2024", "recent", "latest", "new"].any (fun t => pyIn t (pyLower h.content)))).length

/-- One entry of the `key_insights` list. -/
structure Insight where
  category : String
  insight : String
  source : String
  score : ℚ
deriving DecidableEq, Repr

/-- Key-insight entries contributed by one category: hits with content
longer than 100 characters, truncated to a 200-character preview. -/
def insightsOf (category : String) (rs : List SearchResult) : List Insight :=
  ((catHits rs).filter (fun h => 100 < h.content.data.length)).map (fun h =>
    { category := category
      insight := (⟨h.content.data.take 200⟩ : String) ++ "..."
      source := h.source_domain
      score := h.score })

/-- Stable descending insertion by score (models Python's stable
`sorted(key=score, reverse=True)`). -/
def insertByScore (x : Insight) : List Insight → List Insight
  | [] => [x]
  | y :: ys => if y.score ≤ x.score then x :: y :: ys else y :: insertByScore x ys

/-- Stable descending sort by score. -/
def sortInsightsDesc : List Insight → List Insight
  | [] => []
  | x :: xs => insertByScore x (sortInsightsDesc xs)

/-- The web-intelligence record computed by `analyze_search_results`
(entity mentions, sentiment and signal fields are initialized and never
written by the source, so they are outside the model). -/
structure WebIntelligence where
  data_quality_score : ℚ
  source_diversity : ℚ
  content_freshness : String
  key_insights : List Insight
deriving DecidableEq, Repr

/-- Models `analyze_search_results` (320-375): data quality is
`min(1, total_hits/10)`, source diversity `min(1, distinct_domains/8)`,
freshness "high" when more than 60 percent of hits carry a recency
marker, and the top-10 insights ranked by score. -/
def analyze_search_results (sr : SearchResultsByCat) : WebIntelligence :=
  { data_quality_score := min 1 ((totalHitCount sr : ℚ) / 10)
    source_diversity := min 1 ((distinctSourceDomainCount sr : ℚ) / 8)
    content_freshness :=
      if (totalHitCount sr : ℚ) * (6 / 10) < (recentContentCount sr : ℚ) then "high"
      else "medium"
    key_insights :=
      (sortInsightsDesc (insightsOf "company" sr.company ++ insightsOf "industry" sr.industry
        ++ insightsOf "competition" sr.competition)).take 10 }

/-- The confidence metrics of `_analyze_results_node`. -/
structure ConfidenceMetrics where
  data_quality : ℚ
  source_diversity : ℚ
  search_success_rate : ℚ
  overall_confidence : ℚ
deriving DecidableEq, Repr

/-- Models the `confidence_metrics` computation of `_analyze_results_node`
(context_agent.py 608-618). -/
def confidence_metrics_of (intel : WebIntelligence) (failed_searches : List String) :
    ConfidenceMetrics :=
  { data_quality := intel.data_quality_score
    source_diversity := intel.source_diversity
    search_success_rate := 1 - (failed_searches.length : ℚ) / 15
    overall_confidence :=
      (intel.data_quality_score + intel.source_diversity
        + (1 - (failed_searches.length : ℚ) / 15)) / 3 }

/-! ### Parallel search fan-out (context_agent.py 538-594) -/

/-- Entry of `asyncio.gather(..., return_exceptions=True)`: either the
awaited value or a captured exception. -/
inductive FanOutcome where
  | ok (r : SearchResult)
  | exn (msg : String)
deriving DecidableEq, Repr

/-- Exception test used by the result-processing loop
(`isinstance(result, Exception)`). -/
def FanOutcome.isExn : FanOutcome → Bool
  | .ok _ => false
  | .exn _ => true

/-- The per-category result list built by `_execute_parallel_search_node`:
a gathered value is appended unchanged, an exception is replaced by the
explicit error entry `{query, results: [], error: True}` (modelled with
empty answer and zero count for the keys that dict omits). -/
def processCategory (outcome : String → FanOutcome) (qs : List String) : List SearchResult :=
  qs.map (fun q =>
    match outcome q with
    | .ok r => r
    | .exn _ => { query := q, answer := "", results := [], result_count := 0, error := true })

/-- Models `_execute_parallel_search_node` (538-594): buckets the gathered
outcomes back by category and collects `failed_searches`, the queries
whose fan-out member was an exception, in task-creation order. -/
def executeParallelSearch (plan : QueryPlan) (outcome : String → FanOutcome) :
    SearchResultsByCat × List String :=
  ({ company := processCategory outcome plan.company
     industry := processCategory outcome plan.industry
     competition := processCategory outcome plan.competition },
   (plan.company ++ plan.industry ++ plan.competition).filter
     (fun q => (outcome q).isExn))

/-- Models the search-then-analyze path of the context agent graph
(`generate_queries → execute_parallel_search → analyze_results`): the 15
planned queries are issued through `TavilySearchClient.search`, which
never raises, so every fan-out member carries a value; the bucketed
results are analysed and the confidence metrics computed.  `respond`
gives the HTTP outcome of each query's Tavily call. -/
def runContextMetrics (user_input : String) (respond : String → HttpOutcome) :
    SearchResultsByCat × List String × WebIntelligence × ConfidenceMetrics :=
  let entities := extract_search_entities user_input
  let plan := generate_search_queries user_input entities
  let pr := executeParallelSearch plan
    (fun q => FanOutcome.ok (TavilySearchClient.search (respond q) q))
  let intel := analyze_search_results pr.1
  (pr.1, pr.2, intel, confidence_metrics_of intel pr.2)

/-! ### Research agent synthesis (research_agent.py 306-377) -/

/-- The fields of one LLM response that `_synthesize_results_node` reads:
`executive_summary.key_findings` and the three
`strategic_implications` lists.  A key that is missing or holds a falsy
value contributes nothing, which coincides with the empty list; a scalar
string is wrapped by the source into a one-element list, so every field
is modelled as a list. -/
structure LLMStructured where
  key_findings : List String
  recommendations : List String
  risks : List String
  opportunities : List String
deriving DecidableEq, Repr

/-- One entry of `llm_responses`: the per-query success flag and the
parsed response payload. -/
structure LLMResponse where
  success : Bool
  response : LLMStructured
deriving DecidableEq, Repr

/-- The `synthesized` dict of `_synthesize_results_node`. -/
structure SynthesizedResult where
  key_findings : List String
  strategic_recommendations : List String
  risks_and_threats : List String
  opportunities : List String
  confidence_score : ℚ
  synthesis_quality : ℚ
deriving DecidableEq, Repr

/-- Outcome of the synthesis step: the no-successful-responses branch
returns the explicit failure record
`{synthesis_success: False, error: ...}`; otherwise the synthesized
result. -/
inductive SynthOutcome where
  | failed (error : String)
  | ok (s : SynthesizedResult)
deriving DecidableEq, Repr

/-- The success branch of `_synthesize_results_node`: union the four
extracted lists across the successful responses, de-duplicate
(`list(set(...))` modelled as first-occurrence dedup) and truncate each
to 5; synthesis quality is the successful/total ratio. -/
def synthesizeOk (responses : List LLMResponse) : SynthesizedResult :=
  let successful := responses.filter (fun r => r.success)
  { key_findings := ((successful.flatMap (fun r => r.response.key_findings)).dedup).take 5
    strategic_recommendations :=
      ((successful.flatMap (fun r => r.response.recommendations)).dedup).take 5
    risks_and_threats := ((successful.flatMap (fun r => r.response.risks)).dedup).take 5
    opportunities := ((successful.flatMap (fun r => r.response.opportunities)).dedup).take 5
    confidence_score := 8 / 10
    synthesis_quality :=
      if responses.isEmpty then 0
      else (successful.length : ℚ) / (responses.length : ℚ) }

/-- Models `_synthesize_results_node` (research_agent.py 306-377): filter
the successful responses, bail out with the explicit failure record
`{synthesis_success: False, error: ...}` when none exists, otherwise
synthesize. -/
def synthesize_results (responses : List LLMResponse) : SynthOutcome :=
  if (responses.filter (fun r => r.success)).isEmpty then
    .failed "No successful LLM responses to synthesize"
  else
    .ok (synthesizeOk responses)

/-! ### Orchestration agent (orchestration_agent.py) -/

/-- Result dict returned by a sub-agent call (`ContextAgent.analyze`,
`ResearchAgent.conduct_research`): the success flag and error text the
orchestrator nodes read.  Both methods catch their own exceptions and
always return a dict, so the calls are modelled as total. -/
structure AgentResult where
  success : Bool
  error : String
deriving DecidableEq, Repr

/-- The protocol-result dict fields the downstream nodes read. -/
structure ProtocolResult where
  success : Bool
  protocol_count : ℕ
deriving DecidableEq, Repr

/-- Models `_create_fallback_protocol_result` (376-410): three fallback
protocols and a success flag of true. -/
def fallbackProtocolResult : ProtocolResult := { success := true, protocol_count := 3 }

/-- Models `_create_fallback_context_result` (356-374): structurally
valid, success flag true. -/
def fallbackContextResult : AgentResult := { success := true, error := "" }

/-- Models `_create_fallback_research_result` (412-453): structurally
valid, success flag true. -/
def fallbackResearchResult : AgentResult := { success := true, error := "" }

/-- Message of the AttributeError raised by the call
`self._emit_stage_update(...)` at orchestration_agent.py 217: the class
defines no such method anywhere in the repository, so the lookup raises
on every execution of the protocol-selection node that reaches it. -/
def emitStageUpdateError : String :=
  "AttributeError: OrchestrationAgent object has no attribute _emit_stage_update"

/-- The `final_output` record built at orchestration_agent.py 279-329.
The typed record always carries all of its top-level fields; wall-clock
timestamps and free-form result payloads are outside the model
(`results_present` stands for the `results` field being the research
payload rather than the empty dict). -/
structure WorkflowReport where
  success : Bool
  error : Option String
  total_processing_time : ℚ
  stage_times : List (String × ℚ)
  context_success : Bool
  protocol_success : Bool
  research_success : Bool
  protocol_count : ℕ
  results_present : Bool
deriving DecidableEq, Repr

/-- The orchestration LangGraph state (the fields the claims depend on). -/
structure OrchestrationState where
  context_result : Option AgentResult
  protocol_result : Option ProtocolResult
  research_result : Option AgentResult
  error_message : Option String
  stage_times : List (String × ℚ)
  final_output : Option WorkflowReport
deriving DecidableEq, Repr

/-- Models `_initialize_workflow_node` (129-143). -/
def initializeWorkflowNode : OrchestrationState :=
  { context_result := none, protocol_result := none, research_result := none,
    error_message := none, stage_times := [], final_output := none }

/-- Python truthiness of the `error_message` slot as tested at line 326:
`None` and the empty string are falsy. -/
def truthyMsg : Option String → Bool
  | none => false
  | some m => m != ""

/-- Models `_context_analysis_node` (145-177): store the agent's result,
record an error message when it reports failure, substitute the fallback
when the agent is unavailable, and append the stage timing.  `analyze`
catches its own exceptions and always returns, so the node's own
`except` branch is unreachable. -/
def contextAnalysisNode (avail : Bool) (result : AgentResult) (dur : ℚ)
    (s : OrchestrationState) : OrchestrationState :=
  if avail then
    { s with context_result := some result
             error_message :=
               if result.success then s.error_message
               else some ("Context analysis failed: " ++ result.error)
             stage_times := s.stage_times ++ [("context_analysis", dur)] }
  else
    { s with context_result := some fallbackContextResult
             stage_times := s.stage_times ++ [("context_analysis", dur)] }

/-- Models `_protocol_selection_node` (179-231).  `selectorCall` is the
outcome of `protocol_selector.analyze_context` (an external collaborator
that may raise).  When the guard holds and the call raises, the `except`
branch records the fault and substitutes the fallback — without reaching
the timing statement.  Otherwise the result (real or fallback) is stored
and the timing recorded, after which the `_emit_stage_update` lookup
raises AttributeError, so the `except` branch records that error and
overwrites the protocol result with the fallback. -/
def protocolSelectionNode (avail : Bool) (selectorCall : Except String ℕ) (dur : ℚ)
    (s : OrchestrationState) : OrchestrationState :=
  if avail && ((s.context_result.map (fun r => r.success)).getD false) then
    match selectorCall with
    | .error e =>
      { s with error_message := some e
               protocol_result := some fallbackProtocolResult }
    | .ok _ =>
      { s with protocol_result := some fallbackProtocolResult
               stage_times := s.stage_times ++ [("protocol_selection", dur)]
               error_message := some emitStageUpdateError }
  else
    { s with protocol_result := some fallbackProtocolResult
             stage_times := s.stage_times ++ [("protocol_selection", dur)]
             error_message := some emitStageUpdateError }

/-- Models `_research_execution_node` (233-265): run the research agent
when it is available and the protocol result reports success, record an
error message when it reports failure, substitute the fallback otherwise,
and append the stage timing.  `conduct_research` catches its own
exceptions and always returns, so the node's own `except` branch is
unreachable. -/
def researchExecutionNode (avail : Bool) (result : AgentResult) (dur : ℚ)
    (s : OrchestrationState) : OrchestrationState :=
  if avail && ((s.protocol_result.map (fun r => r.success)).getD false) then
    { s with research_result := some result
             error_message :=
               if result.success then s.error_message
               else some ("Research failed: " ++ result.error)
             stage_times := s.stage_times ++ [("research_execution", dur)] }
  else
    { s with research_result := some fallbackResearchResult
             stage_times := s.stage_times ++ [("research_execution", dur)] }

/-- Models `_finalize_output_node` (267-343): build the report with all
top-level fields, flip the success flag and surface the current
`error_message` when that slot is truthy, then append the finalize
timing (the report aliases the timing dict, so the report's map carries
the finalize entry as well). -/
def finalizeOutputNode (dur : ℚ) (s : OrchestrationState) : OrchestrationState :=
  let total := (s.stage_times.map (fun e => e.2)).sum
  let base : WorkflowReport :=
    { success := true
      error := none
      total_processing_time := total
      stage_times := s.stage_times ++ [("finalize_output", dur)]
      context_success := (s.context_result.map (fun r => r.success)).getD false
      protocol_success := (s.protocol_result.map (fun r => r.success)).getD false
      research_success := (s.research_result.map (fun r => r.success)).getD false
      protocol_count := (s.protocol_result.map (fun r => r.protocol_count)).getD 0
      results_present := (s.research_result.map (fun r => r.success)).getD false }
  let rep :=
    if truthyMsg s.error_message then
      { base with success := false, error := s.error_message }
    else base
  { s with final_output := some rep
           stage_times := s.stage_times ++ [("finalize_output", dur)] }

/-- The external inputs of one workflow run: per-stage agent
availability, the collaborator outcomes and the measured stage
durations. -/
structure RunParams where
  contextAvail : Bool
  contextResult : AgentResult
  selectorAvail : Bool
  selectorCall : Except String ℕ
  researchAvail : Bool
  researchResult : AgentResult
  d1 : ℚ
  d2 : ℚ
  d3 : ℚ
  d4 : ℚ
deriving Repr

/-- The state reaching `finalize_output`. -/
def preFinal (p : RunParams) : OrchestrationState :=
  researchExecutionNode p.researchAvail p.researchResult p.d3
    (protocolSelectionNode p.selectorAvail p.selectorCall p.d2
      (contextAnalysisNode p.contextAvail p.contextResult p.d1
        initializeWorkflowNode))

/-- Models `execute_complete_workflow`: the strictly ordered run
`init → context_analysis → protocol_selection → research_execution →
finalize_output`. -/
def runWorkflow (p : RunParams) : OrchestrationState :=
  finalizeOutputNode p.d4 (preFinal p)

/-- Truth of the guard of the protocol-selection stage's real branch as a
function of the run parameters. -/
def contextOkFlag (p : RunParams) : Bool :=
  !p.contextAvail || p.contextResult.success

/-- The single error message the protocol-selection stage records: the
selector's raised fault when the guard held and the call raised, else the
AttributeError of the undefined `_emit_stage_update`. -/
def stage2Error (p : RunParams) : String :=
  match p.selectorCall with
  | .error e => if p.selectorAvail && contextOkFlag p then e else emitStageUpdateError
  | .ok _ => emitStageUpdateError

/-- The error messages a run records, in stage order. -/
def recordedErrors (p : RunParams) : List String :=
  (if p.contextAvail && !p.contextResult.success then
    ["Context analysis failed: " ++ p.contextResult.error] else [])
  ++ [stage2Error p]
  ++ (if p.researchAvail && !p.researchResult.success then
    ["Research failed: " ++ p.researchResult.error] else [])

/-- The last error message a run records. -/
def lastErrorOf (p : RunParams) : String :=
  if p.researchAvail && !p.researchResult.success then
    "Research failed: " ++ p.researchResult.error
  else stage2Error p

/-- Placeholder report for the `Option.getD` projection below; every run
in fact produces `some` report. -/
def defaultReport : WorkflowReport :=
  { success := true, error := none, total_processing_time := 0, stage_times := [],
    context_success := false, protocol_success := false, research_success := false,
    protocol_count := 0, results_present := false }

/-- The report a run returns to the caller. -/
def reportOf (p : RunParams) : WorkflowReport :=
  ((runWorkflow p).final_output).getD defaultReport

/-- Counterexample run for C8: the context stage fails first, then the
protocol-selection stage records the AttributeError of the undefined
`_emit_stage_update`, which overwrites the single `error_message` slot. -/
def firstErrorRun : RunParams :=
  { contextAvail := true
    contextResult := { success := false, error := "context exploded" }
    selectorAvail := true
    selectorCall := .ok 5
    researchAvail := true
    researchResult := { success := true, error := "" }
    d1 := 0, d2 := 0, d3 := 0, d4 := 0 }

/-- Counterexample run for C9: the protocol selector raises, so the
stage's `except` branch substitutes the fallback protocol result without
ever reaching the timing statement. -/
def selectorRaisesRun : RunParams :=
  { contextAvail := true
    contextResult := { success := true, error := "" }
    selectorAvail := true
    selectorCall := .error "protocol selector exploded"
    researchAvail := true
    researchResult := { success := true, error := "" }
    d1 := 0, d2 := 0, d3 := 0, d4 := 0 }

/-! ### Verified properties -/

theorem padPairFuel_add_one (a b : String) :
    ∀ (f : ℕ) (qs : List String), 5 ≤ qs.length + 2 * f →
      padPairFuel (f + 1) qs a b = padPairFuel f qs a b := by
  intro f
  induction f with
  | zero =>
    intro qs h
    simp only [padPairFuel]
    rw [if_neg]
    omega
  | succ n ih =>
    intro qs h
    by_cases hlt : qs.length < 5
    · show (if qs.length < 5 then padPairFuel (n + 1) (qs ++ [a, b]) a b else qs) = _
      rw [if_pos hlt]
      simp only [padPairFuel, if_pos hlt]
      exact ih (qs ++ [a, b]) (by simp only [List.length_append, List.length_cons, List.length_nil]; omega)
    · simp only [padPairFuel, if_neg hlt]

/-- The fuel-3 definition satisfies the source loop's defining equation:
stop when the bucket has at least 5 entries, otherwise append the two
generic queries and continue. -/
theorem padPair_loop_eq (qs : List String) (a b : String) :
    padPair qs a b = if qs.length < 5 then padPair (qs ++ [a, b]) a b else qs := by
  by_cases h : qs.length < 5
  · rw [if_pos h]
    show padPairFuel 3 qs a b = padPairFuel 3 (qs ++ [a, b]) a b
    simp only [padPairFuel, if_pos h]
    exact (padPairFuel_add_one a b 2 (qs ++ [a, b])
      (by simp only [List.length_append, List.length_cons, List.length_nil]; omega)).symm
  · rw [if_neg h]
    show padPairFuel 3 qs a b = qs
    simp only [padPairFuel, if_neg h]

theorem padTripleFuel_add_one (a b c : String) :
    ∀ (f : ℕ) (qs : List String), 5 ≤ qs.length + 3 * f →
      padTripleFuel (f + 1) qs a b c = padTripleFuel f qs a b c := by
  intro f
  induction f with
  | zero =>
    intro qs h
    simp only [padTripleFuel]
    rw [if_neg]
    omega
  | succ n ih =>
    intro qs h
    by_cases hlt : qs.length < 5
    · show (if qs.length < 5 then padTripleFuel (n + 1) (qs ++ [a, b, c]) a b c else qs) = _
      rw [if_pos hlt]
      simp only [padTripleFuel, if_pos hlt]
      exact ih (qs ++ [a, b, c]) (by simp only [List.length_append, List.length_cons, List.length_nil]; omega)
    · simp only [padTripleFuel, if_neg hlt]

/-- The fuel-2 definition satisfies the source loop's defining equation. -/
theorem padTriple_loop_eq (qs : List String) (a b c : String) :
    padTriple qs a b c =
      if qs.length < 5 then padTriple (qs ++ [a, b, c]) a b c else qs := by
  by_cases h : qs.length < 5
  · rw [if_pos h]
    show padTripleFuel 2 qs a b c = padTripleFuel 2 (qs ++ [a, b, c]) a b c
    simp only [padTripleFuel, if_pos h]
    exact (padTripleFuel_add_one a b c 1 (qs ++ [a, b, c])
      (by simp only [List.length_append, List.length_cons, List.length_nil]; omega)).symm
  · rw [if_neg h]
    show padTripleFuel 2 qs a b c = qs
    simp only [padTripleFuel, if_neg h]

theorem padPairFuel_le (a b : String) :
    ∀ (f : ℕ) (qs : List String), 5 ≤ qs.length + 2 * f →
      5 ≤ (padPairFuel f qs a b).length := by
  intro f
  induction f with
  | zero => intro qs h; simpa [padPairFuel] using h
  | succ n ih =>
    intro qs h
    by_cases hlt : qs.length < 5
    · simp only [padPairFuel, if_pos hlt]
      exact ih (qs ++ [a, b]) (by simp only [List.length_append, List.length_cons, List.length_nil]; omega)
    · simp only [padPairFuel, if_neg hlt]; omega

theorem padTripleFuel_le (a b c : String) :
    ∀ (f : ℕ) (qs : List String), 5 ≤ qs.length + 3 * f →
      5 ≤ (padTripleFuel f qs a b c).length := by
  intro f
  induction f with
  | zero => intro qs h; simpa [padTripleFuel] using h
  | succ n ih =>
    intro qs h
    by_cases hlt : qs.length < 5
    · simp only [padTripleFuel, if_pos hlt]
      exact ih (qs ++ [a, b, c]) (by simp only [List.length_append, List.length_cons, List.length_nil]; omega)
    · simp only [padTripleFuel, if_neg hlt]; omega

theorem padPair_le (qs : List String) (a b : String) : 5 ≤ (padPair qs a b).length :=
  padPairFuel_le a b 3 qs (by omega)

theorem padTriple_le (qs : List String) (a b c : String) :
    5 ≤ (padTriple qs a b c).length :=
  padTripleFuel_le a b c 2 qs (by omega)

/-- C1: for every input text and every entity set — in particular one with
all six categories empty — the generated query plan has exactly 5 company
queries, 5 industry queries and 5 competition queries, 15 in total. -/
theorem generate_search_queries_shape (user_input : String) (entities : EntitySet) :
    (generate_search_queries user_input entities).company.length = 5 ∧
    (generate_search_queries user_input entities).industry.length = 5 ∧
    (generate_search_queries user_input entities).competition.length = 5 ∧
    (generate_search_queries user_input entities).total = 15 := by
  have key2 : ∀ (qs : List String) (a b : String), ((padPair qs a b).take 5).length = 5 := by
    intro qs a b
    have h := padPair_le qs a b
    rw [List.length_take]
    omega
  have key3 : ∀ (qs : List String) (a b c : String),
      ((padTriple qs a b c).take 5).length = 5 := by
    intro qs a b c
    have h := padTriple_le qs a b c
    rw [List.length_take]
    omega
  have hc : (generate_search_queries user_input entities).company.length = 5 := key2 _ _ _
  have hi : (generate_search_queries user_input entities).industry.length = 5 := key2 _ _ _
  have hk : (generate_search_queries user_input entities).competition.length = 5 := key3 _ _ _ _
  exact ⟨hc, hi, hk, by simp [QueryPlan.total, hc, hi, hk]⟩

theorem isPrefixB_map (f : Char → Char) :
    ∀ (n h : List Char), isPrefixB n h = true → isPrefixB (n.map f) (h.map f) = true := by
  intro n
  induction n with
  | nil => intro h _; simp [isPrefixB, List.map]
  | cons a as ih =>
    intro h hp
    cases h with
    | nil => simp [isPrefixB] at hp
    | cons b bs =>
      simp only [isPrefixB, Bool.and_eq_true, beq_iff_eq] at hp
      simp only [List.map, isPrefixB, Bool.and_eq_true, beq_iff_eq]
      exact ⟨congrArg f hp.1, ih bs hp.2⟩

theorem isInfixB_map (f : Char → Char) :
    ∀ (h n : List Char), isInfixB n h = true → isInfixB (n.map f) (h.map f) = true := by
  intro h
  induction h with
  | nil =>
    intro n hn
    simp only [isInfixB, List.isEmpty_iff] at hn
    subst hn
    simp [isInfixB, List.map]
  | cons x rest ih =>
    intro n hn
    simp only [isInfixB, Bool.or_eq_true] at hn
    rcases hn with hp | hi
    · simp only [List.map, isInfixB, Bool.or_eq_true]
      exact Or.inl (isPrefixB_map f n (x :: rest) hp)
    · simp only [List.map, isInfixB, Bool.or_eq_true]
      exact Or.inr (ih n hi)

/-- Containment of an all-lower-case needle survives lower-casing the
haystack, so `w in user_input` implies `w in user_input.lower()`. -/
theorem pyIn_pyLower (sub input : String)
    (hsub : sub.data.map Char.toLower = sub.data)
    (h : pyIn sub input = true) : pyIn sub (pyLower input) = true := by
  have h2 := isInfixB_map Char.toLower input.data sub.data h
  rw [hsub] at h2
  exact h2

/-- C5: the scenario-A input is classified as competitive / tier 1-10 /
medium urgency, and any input containing both "urgent" and "critical"
gets threat tier 21-25 and urgency "immediate". -/
theorem suggestion_heuristics (input : String)
    (hu : pyIn "urgent" input = true) (hc : pyIn "critical" input = true) :
    suggestAnalysisType "Analyze competitive landscape for semiconductor equipment market"
      = "competitive" ∧
    suggestThreatTier "Analyze competitive landscape for semiconductor equipment market"
      = "1-10" ∧
    detectUrgency "Analyze competitive landscape for semiconductor equipment market"
      = "medium" ∧
    suggestThreatTier input = "21-25" ∧
    detectUrgency input = "immediate" := by
  have hu' : pyIn "urgent" (pyLower input) = true :=
    pyIn_pyLower _ _ (by decide) hu
  refine ⟨by decide, by decide, by decide, ?_, ?_⟩
  · simp [suggestThreatTier, hu']
  · simp [detectUrgency, hu']

/-- C5 witness: a concrete input containing both "urgent" and "critical". -/
theorem suggestion_heuristics_witness :
    suggestThreatTier "urgent: critical infrastructure threat" = "21-25" ∧
    detectUrgency "urgent: critical infrastructure threat" = "immediate" :=
  ⟨(suggestion_heuristics "urgent: critical infrastructure threat"
      (by decide) (by decide)).2.2.2.1,
   (suggestion_heuristics "urgent: critical infrastructure threat"
      (by decide) (by decide)).2.2.2.2⟩

/-- C4: the entity extractor and the query planner are pure functions of
their inputs — two runs on equal inputs produce equal outputs (same
strings, same order, in every category/bucket).  In the embedding both are
total Lean functions with no state, which is the formal content of the
purity claim. -/
theorem extractor_planner_deterministic (t₁ t₂ : String) (e₁ e₂ : EntitySet)
    (ht : t₁ = t₂) (he : e₁ = e₂) :
    extract_search_entities t₁ = extract_search_entities t₂ ∧
    generate_search_queries t₁ e₁ = generate_search_queries t₂ e₂ := by
  subst ht
  subst he
  exact ⟨rfl, rfl⟩

/-- C4 witness: two runs on the concrete input of scenario A. -/
theorem extractor_planner_deterministic_witness :
    extract_search_entities "Analyze Tesla market position"
      = extract_search_entities "Analyze Tesla market position" ∧
    generate_search_queries "Analyze Tesla market position" ⟨[], [], [], [], [], []⟩
      = generate_search_queries "Analyze Tesla market position" ⟨[], [], [], [], [], []⟩ :=
  extractor_planner_deterministic _ _ _ _ rfl rfl

theorem search_failure_eq (outcome : HttpOutcome) (query : String)
    (h : outcome.isFailure = true) :
    TavilySearchClient.search outcome query = emptyResult query := by
  cases outcome with
  | ok status body =>
    simp only [HttpOutcome.isFailure, decide_eq_true_eq, ne_eq] at h
    simp [TavilySearchClient.search, h]
  | raised msg => rfl

/-- C10: the search client converts every non-200 status and every thrown
fault into the empty-with-error result
`{query, answer: "", results: [], result_count: 0, error: true}`; it is a
total function, so no per-query failure ever reaches the fan-out layer as
an exception. -/
theorem tavily_search_never_raises (outcome : HttpOutcome) (query : String)
    (h : outcome.isFailure = true) :
    TavilySearchClient.search outcome query =
      { query := query, answer := "", results := [], result_count := 0, error := true } :=
  search_failure_eq outcome query h

/-- C10 witness: a timed-out call on a concrete query. -/
theorem tavily_search_never_raises_witness :
    TavilySearchClient.search (HttpOutcome.raised "timeout") "tesla news" =
      { query := "tesla news", answer := "", results := [], result_count := 0,
        error := true } :=
  tavily_search_never_raises (HttpOutcome.raised "timeout") "tesla news" (by decide)

/-- C2: for every bucketed result set and every failed-query list of at
most 15 entries (at most one per issued query), the confidence metrics
satisfy the four defining formulas and the overall confidence lies in
[0, 1]. -/
theorem confidence_metrics_formulas (sr : SearchResultsByCat) (failed : List String)
    (hf : failed.length ≤ 15) :
    (confidence_metrics_of (analyze_search_results sr) failed).search_success_rate
      = 1 - (failed.length : ℚ) / 15 ∧
    (confidence_metrics_of (analyze_search_results sr) failed).data_quality
      = min 1 ((totalHitCount sr : ℚ) / 10) ∧
    (confidence_metrics_of (analyze_search_results sr) failed).source_diversity
      = min 1 ((distinctSourceDomainCount sr : ℚ) / 8) ∧
    (confidence_metrics_of (analyze_search_results sr) failed).overall_confidence
      = ((confidence_metrics_of (analyze_search_results sr) failed).data_quality
          + (confidence_metrics_of (analyze_search_results sr) failed).source_diversity
          + (confidence_metrics_of (analyze_search_results sr) failed).search_success_rate)
        / 3 ∧
    0 ≤ (confidence_metrics_of (analyze_search_results sr) failed).overall_confidence ∧
    (confidence_metrics_of (analyze_search_results sr) failed).overall_confidence ≤ 1 := by
  have hdq0 : (0 : ℚ) ≤ min 1 ((totalHitCount sr : ℚ) / 10) :=
    le_min (by norm_num) (by positivity)
  have hdq1 : min 1 ((totalHitCount sr : ℚ) / 10) ≤ 1 := min_le_left _ _
  have hsd0 : (0 : ℚ) ≤ min 1 ((distinctSourceDomainCount sr : ℚ) / 8) :=
    le_min (by norm_num) (by positivity)
  have hsd1 : min 1 ((distinctSourceDomainCount sr : ℚ) / 8) ≤ 1 := min_le_left _ _
  have hfq : (failed.length : ℚ) ≤ 15 := by exact_mod_cast hf
  have hfq0 : (0 : ℚ) ≤ (failed.length : ℚ) := by positivity
  have hdiv1 : (failed.length : ℚ) / 15 ≤ 1 := by
    rw [div_le_one (by norm_num : (0 : ℚ) < 15)]
    exact hfq
  have hdiv0 : (0 : ℚ) ≤ (failed.length : ℚ) / 15 := by positivity
  refine ⟨rfl, rfl, rfl, rfl, ?_, ?_⟩
  · show 0 ≤ (min 1 ((totalHitCount sr : ℚ) / 10) + min 1 ((distinctSourceDomainCount sr : ℚ) / 8)
      + (1 - (failed.length : ℚ) / 15)) / 3
    have h1 : (0 : ℚ) ≤ 1 - (failed.length : ℚ) / 15 := by linarith
    linarith
  · show (min 1 ((totalHitCount sr : ℚ) / 10) + min 1 ((distinctSourceDomainCount sr : ℚ) / 8)
      + (1 - (failed.length : ℚ) / 15)) / 3 ≤ 1
    have h1 : 1 - (failed.length : ℚ) / 15 ≤ 1 := by linarith
    linarith

/-- C2 witness: the metric formulas at an empty result set with no failed
queries. -/
theorem confidence_metrics_formulas_witness :
    (confidence_metrics_of (analyze_search_results ⟨[], [], []⟩) []).search_success_rate
      = 1 - (([] : List String).length : ℚ) / 15 ∧
    (confidence_metrics_of (analyze_search_results ⟨[], [], []⟩) []).data_quality
      = min 1 ((totalHitCount ⟨[], [], []⟩ : ℚ) / 10) ∧
    (confidence_metrics_of (analyze_search_results ⟨[], [], []⟩) []).source_diversity
      = min 1 ((distinctSourceDomainCount ⟨[], [], []⟩ : ℚ) / 8) ∧
    (confidence_metrics_of (analyze_search_results ⟨[], [], []⟩) []).overall_confidence
      = ((confidence_metrics_of (analyze_search_results ⟨[], [], []⟩) []).data_quality
          + (confidence_metrics_of (analyze_search_results ⟨[], [], []⟩) []).source_diversity
          + (confidence_metrics_of (analyze_search_results ⟨[], [], []⟩) []).search_success_rate)
        / 3 ∧
    0 ≤ (confidence_metrics_of (analyze_search_results ⟨[], [], []⟩) []).overall_confidence ∧
    (confidence_metrics_of (analyze_search_results ⟨[], [], []⟩) []).overall_confidence ≤ 1 :=
  confidence_metrics_formulas ⟨[], [], []⟩ [] (by decide)

theorem failed_searches_empty (plan : QueryPlan) (f : String → SearchResult) :
    (executeParallelSearch plan (fun q => FanOutcome.ok (f q))).2 = [] := by
  simp [executeParallelSearch, FanOutcome.isExn]

theorem catHits_processCategory_of_fail (respond : String → HttpOutcome)
    (hfail : ∀ q, (respond q).isFailure = true) (qs : List String) :
    catHits (processCategory
      (fun q => FanOutcome.ok (TavilySearchClient.search (respond q) q)) qs) = [] := by
  induction qs with
  | nil => rfl
  | cons q rest ih =>
    simp only [processCategory, List.map_cons, catHits, List.flatMap_cons] at *
    rw [search_failure_eq (respond q) q (hfail q)]
    simpa [emptyResult] using ih

theorem runContextMetrics_all_fail (user_input : String) (respond : String → HttpOutcome)
    (hfail : ∀ q, (respond q).isFailure = true) :
    (runContextMetrics user_input respond).2.2.1.data_quality_score = 0 ∧
    (runContextMetrics user_input respond).2.2.2.data_quality = 0 ∧
    (runContextMetrics user_input respond).2.2.2.search_success_rate = 1 := by
  have hhits : (runContextMetrics user_input respond).1.hits = [] := by
    simp only [runContextMetrics, executeParallelSearch, SearchResultsByCat.hits]
    rw [catHits_processCategory_of_fail respond hfail,
      catHits_processCategory_of_fail respond hfail,
      catHits_processCategory_of_fail respond hfail]
    rfl
  have htot : totalHitCount (runContextMetrics user_input respond).1 = 0 := by
    rw [totalHitCount, hhits]
    rfl
  have hfailed : (runContextMetrics user_input respond).2.1 = [] := by
    simp only [runContextMetrics]
    exact failed_searches_empty _ _
  have hdq : (runContextMetrics user_input respond).2.2.1.data_quality_score = 0 := by
    show (analyze_search_results (runContextMetrics user_input respond).1).data_quality_score = 0
    rw [analyze_search_results, htot]
    norm_num
  refine ⟨hdq, ?_, ?_⟩
  · show (analyze_search_results (runContextMetrics user_input respond).1).data_quality_score = 0
    exact hdq
  · show 1 - ((runContextMetrics user_input respond).2.1.length : ℚ) / 15 = 1
    rw [hfailed]
    norm_num

theorem dedup_take5_nodup (l : List String) : ((l.dedup).take 5).Nodup :=
  List.Nodup.sublist (List.take_sublist 5 l.dedup) (List.nodup_dedup l)

theorem take5_le (l : List String) : (l.take 5).length ≤ 5 := by
  rw [List.length_take]
  omega

/-- C6: every synthesized output list is duplicate-free and holds at most
5 strings. -/
theorem synthesized_lists_nodup_le5 (responses : List LLMResponse) (s : SynthesizedResult)
    (h : synthesize_results responses = .ok s) :
    s.key_findings.Nodup ∧ s.key_findings.length ≤ 5 ∧
    s.strategic_recommendations.Nodup ∧ s.strategic_recommendations.length ≤ 5 ∧
    s.risks_and_threats.Nodup ∧ s.risks_and_threats.length ≤ 5 ∧
    s.opportunities.Nodup ∧ s.opportunities.length ≤ 5 := by
  rw [synthesize_results] at h
  split at h
  · exact absurd h (by simp)
  · rw [SynthOutcome.ok.injEq] at h
    subst h
    exact ⟨dedup_take5_nodup _, take5_le _, dedup_take5_nodup _, take5_le _,
      dedup_take5_nodup _, take5_le _, dedup_take5_nodup _, take5_le _⟩

/-- C6 witness: one successful response with duplicated strings in two of
its lists. -/
theorem synthesized_lists_nodup_le5_witness :
    (synthesizeOk [⟨true, ⟨["a", "a", "b"], ["r"], [], ["o", "o"]⟩⟩]).key_findings.Nodup ∧
    (synthesizeOk [⟨true, ⟨["a", "a", "b"], ["r"], [],
      ["o", "o"]⟩⟩]).key_findings.length ≤ 5 ∧
    (synthesizeOk [⟨true, ⟨["a", "a", "b"], ["r"], [],
      ["o", "o"]⟩⟩]).strategic_recommendations.Nodup ∧
    (synthesizeOk [⟨true, ⟨["a", "a", "b"], ["r"], [],
      ["o", "o"]⟩⟩]).strategic_recommendations.length ≤ 5 ∧
    (synthesizeOk [⟨true, ⟨["a", "a", "b"], ["r"], [],
      ["o", "o"]⟩⟩]).risks_and_threats.Nodup ∧
    (synthesizeOk [⟨true, ⟨["a", "a", "b"], ["r"], [],
      ["o", "o"]⟩⟩]).risks_and_threats.length ≤ 5 ∧
    (synthesizeOk [⟨true, ⟨["a", "a", "b"], ["r"], [], ["o", "o"]⟩⟩]).opportunities.Nodup ∧
    (synthesizeOk [⟨true, ⟨["a", "a", "b"], ["r"], [],
      ["o", "o"]⟩⟩]).opportunities.length ≤ 5 :=
  synthesized_lists_nodup_le5 [⟨true, ⟨["a", "a", "b"], ["r"], [], ["o", "o"]⟩⟩]
    (synthesizeOk [⟨true, ⟨["a", "a", "b"], ["r"], [], ["o", "o"]⟩⟩])
    (by rw [synthesize_results, if_neg (by decide)])

/-- C7: synthesis quality is the successful/total response ratio whenever
a synthesized result is produced, and when no response succeeded — in
particular when there are no responses at all — the synthesis is an
explicit failure carrying an error message, never a silently empty
result.  The source's `0 if total == 0` quality branch is unreachable:
zero responses means zero successes, which takes the failure branch
first. -/
theorem synthesis_quality_ratio (responses : List LLMResponse) :
    ((responses.filter (fun r => r.success)).isEmpty = true →
      synthesize_results responses = .failed "No successful LLM responses to synthesize") ∧
    (∀ s : SynthesizedResult, synthesize_results responses = .ok s →
      s.synthesis_quality
        = ((responses.filter (fun r => r.success)).length : ℚ) / (responses.length : ℚ)) := by
  constructor
  · intro hempty
    rw [synthesize_results, if_pos hempty]
  · intro s h
    rw [synthesize_results] at h
    split at h
    · exact absurd h (by simp)
    · rename_i hne
      rw [SynthOutcome.ok.injEq] at h
      subst h
      show (if responses.isEmpty then 0
        else ((responses.filter (fun r => r.success)).length : ℚ) / (responses.length : ℚ)) = _
      rw [if_neg]
      intro habs
      rw [List.isEmpty_iff] at habs
      subst habs
      exact hne rfl

/-- C7 witness: the failure branch at the empty response list and the
ratio at one successful plus one failed response. -/
theorem synthesis_quality_ratio_witness :
    synthesize_results [] = .failed "No successful LLM responses to synthesize" ∧
    (synthesizeOk [⟨true, ⟨["a"], [], [], []⟩⟩,
        ⟨false, ⟨[], [], [], []⟩⟩]).synthesis_quality
      = ((([⟨true, ⟨["a"], [], [], []⟩⟩, ⟨false, ⟨[], [], [], []⟩⟩]
          : List LLMResponse).filter (fun r => r.success)).length : ℚ) /
        (([⟨true, ⟨["a"], [], [], []⟩⟩, ⟨false, ⟨[], [], [], []⟩⟩]
          : List LLMResponse).length : ℚ) :=
  ⟨(synthesis_quality_ratio []).1 (by decide),
   (synthesis_quality_ratio [⟨true, ⟨["a"], [], [], []⟩⟩, ⟨false, ⟨[], [], [], []⟩⟩]).2
     (synthesizeOk [⟨true, ⟨["a"], [], [], []⟩⟩, ⟨false, ⟨[], [], [], []⟩⟩])
     (by rw [synthesize_results, if_neg (by decide)])⟩

theorem recordedErrors_getLast (p : RunParams) :
    (recordedErrors p).getLast? = some (lastErrorOf p) := by
  rw [recordedErrors, lastErrorOf]
  by_cases hr : (p.researchAvail && !p.researchResult.success) = true
  · rw [if_pos hr, if_pos hr, List.getLast?_concat]
  · rw [if_neg hr, if_neg hr, List.append_nil, List.getLast?_concat]

theorem recordedErrors_ne_nil (p : RunParams) : recordedErrors p ≠ [] := by
  rw [recordedErrors]
  simp

theorem lastErrorOf_mem (p : RunParams) : lastErrorOf p ∈ recordedErrors p := by
  rw [lastErrorOf, recordedErrors]
  by_cases hr : (p.researchAvail && !p.researchResult.success) = true
  · rw [if_pos hr, if_pos hr]
    simp
  · rw [if_neg hr, if_neg hr]
    simp

theorem preFinal_error_message (p : RunParams) :
    (preFinal p).error_message = some (lastErrorOf p) := by
  obtain ⟨ca, ⟨cs, ce⟩, sa, sc, ra, ⟨rs, re⟩, d1, d2, d3, d4⟩ := p
  cases sc with
  | error e =>
    cases ca <;> cases cs <;> cases sa <;> cases ra <;> cases rs <;>
      simp [preFinal, contextAnalysisNode, protocolSelectionNode, researchExecutionNode,
        initializeWorkflowNode, lastErrorOf, stage2Error, contextOkFlag,
        fallbackContextResult, fallbackProtocolResult, fallbackResearchResult]
  | ok n =>
    cases ca <;> cases cs <;> cases sa <;> cases ra <;> cases rs <;>
      simp [preFinal, contextAnalysisNode, protocolSelectionNode, researchExecutionNode,
        initializeWorkflowNode, lastErrorOf, stage2Error, contextOkFlag,
        fallbackContextResult, fallbackProtocolResult, fallbackResearchResult]

theorem finalize_final_output (dur : ℚ) (s : OrchestrationState) :
    (finalizeOutputNode dur s).final_output.isSome = true := rfl

theorem finalize_success_eq (dur : ℚ) (s : OrchestrationState) :
    (((finalizeOutputNode dur s).final_output).getD defaultReport).success
      = !(truthyMsg s.error_message) := by
  cases h : truthyMsg s.error_message <;>
    simp [finalizeOutputNode, h]

theorem finalize_error_eq (dur : ℚ) (s : OrchestrationState) :
    (((finalizeOutputNode dur s).final_output).getD defaultReport).error
      = if truthyMsg s.error_message then s.error_message else none := by
  cases h : truthyMsg s.error_message <;>
    simp [finalizeOutputNode, h]

/-- C8 (amended): the report's success flag is false iff the run recorded
an error message (under the proviso that recorded messages are non-empty,
since the finalizer treats an empty string as falsy), and the message
surfaced in the report's error field is the LAST recorded one — the
single `error_message` slot is overwritten by each later recording, not
preserved from the first. -/
theorem workflow_error_surfacing (p : RunParams) (h : "" ∉ recordedErrors p) :
    ((reportOf p).success = false ↔ recordedErrors p ≠ []) ∧
    (reportOf p).error = (recordedErrors p).getLast? := by
  have hlast := recordedErrors_getLast p
  have hmem := lastErrorOf_mem p
  have hne : lastErrorOf p ≠ "" := fun habs => h (habs ▸ hmem)
  have htruthy : truthyMsg (preFinal p).error_message = true := by
    rw [preFinal_error_message]
    simp [truthyMsg, hne]
  constructor
  · constructor
    · intro _
      exact recordedErrors_ne_nil p
    · intro _
      show (reportOf p).success = false
      simp only [reportOf, runWorkflow]
      rw [finalize_success_eq, htruthy]
      rfl
  · simp only [reportOf, runWorkflow]
    rw [finalize_error_eq, htruthy, preFinal_error_message p, hlast]
    simp

/-- C8 witness: a run whose context stage fails and whose later stages
record further errors. -/
theorem workflow_error_surfacing_witness :
    ((reportOf firstErrorRun).success = false ↔ recordedErrors firstErrorRun ≠ []) ∧
    (reportOf firstErrorRun).error = (recordedErrors firstErrorRun).getLast? :=
  workflow_error_surfacing firstErrorRun (by decide)

/-- C8 counterexample: in `firstErrorRun` the context stage records the
first error message, but the protocol-selection stage later overwrites
the single slot, so the surfaced error is not the first recorded one. -/
theorem workflow_first_error_counterexample :
    (recordedErrors firstErrorRun).head? = some "Context analysis failed: context exploded" ∧
    (reportOf firstErrorRun).success = false ∧
    (reportOf firstErrorRun).error = some emitStageUpdateError ∧
    some emitStageUpdateError ≠ some "Context analysis failed: context exploded" := by
  refine ⟨by decide, ?_, ?_, by decide⟩
  · simp only [reportOf, runWorkflow]
    rw [finalize_success_eq]
    decide
  · simp only [reportOf, runWorkflow]
    rw [finalize_error_eq]
    decide

/-- C9 (amended): when no stage body raises before its timing statement —
here, when the protocol selector call returns — every one of the four
working stages appends exactly one entry to the stage-timing map, on the
success and agent-unavailable fallback paths alike. -/
theorem stage_timing_one_entry (p : RunParams) (n : ℕ) (hsel : p.selectorCall = .ok n) :
    ((runWorkflow p).stage_times.filter (fun e => e.1 = "context_analysis")).length = 1 ∧
    ((runWorkflow p).stage_times.filter (fun e => e.1 = "protocol_selection")).length = 1 ∧
    ((runWorkflow p).stage_times.filter (fun e => e.1 = "research_execution")).length = 1 ∧
    ((runWorkflow p).stage_times.filter (fun e => e.1 = "finalize_output")).length = 1 := by
  obtain ⟨ca, ⟨cs, ce⟩, sa, sc, ra, ⟨rs, re⟩, d1, d2, d3, d4⟩ := p
  simp only at hsel
  subst hsel
  cases ca <;> cases cs <;> cases sa <;> cases ra <;> cases rs <;>
    simp [runWorkflow, preFinal, finalizeOutputNode, contextAnalysisNode,
      protocolSelectionNode, researchExecutionNode, initializeWorkflowNode,
      List.filter]

/-- C9 witness: a run in which the selector call returns normally. -/
theorem stage_timing_one_entry_witness :
    ((runWorkflow ⟨true, ⟨true, ""⟩, true, .ok 3, true, ⟨true, ""⟩,
        0, 0, 0, 0⟩).stage_times.filter (fun e => e.1 = "context_analysis")).length = 1 ∧
    ((runWorkflow ⟨true, ⟨true, ""⟩, true, .ok 3, true, ⟨true, ""⟩,
        0, 0, 0, 0⟩).stage_times.filter (fun e => e.1 = "protocol_selection")).length = 1 ∧
    ((runWorkflow ⟨true, ⟨true, ""⟩, true, .ok 3, true, ⟨true, ""⟩,
        0, 0, 0, 0⟩).stage_times.filter (fun e => e.1 = "research_execution")).length = 1 ∧
    ((runWorkflow ⟨true, ⟨true, ""⟩, true, .ok 3, true, ⟨true, ""⟩,
        0, 0, 0, 0⟩).stage_times.filter (fun e => e.1 = "finalize_output")).length = 1 :=
  stage_timing_one_entry ⟨true, ⟨true, ""⟩, true, .ok 3, true, ⟨true, ""⟩, 0, 0, 0, 0⟩
    3 rfl

/-- C9 counterexample: when the protocol-selection stage completes through
its exception handler (the selector raised), the stage substitutes its
fallback value but appends no timing entry — the claim's "exactly one
entry per stage on completion, success or fallback" fails. -/
theorem stage_timing_skipped_counterexample :
    ((runWorkflow selectorRaisesRun).stage_times.filter
      (fun e => e.1 = "protocol_selection")).length = 0 ∧
    (runWorkflow selectorRaisesRun).protocol_result = some fallbackProtocolResult := by
  constructor
  · decide
  · decide

/-- C3 counterexample: with every one of the 15 Tavily calls failing (a
thrown timeout fault), `failed_searches` stays empty — the client
converts each failure into a gathered data value, which the fan-out layer
counts as a completed search — so the computed search success rate is 1,
not the 0 the claim states. -/
theorem all_searches_fail_success_rate_counterexample :
    (runContextMetrics "Analyze competitive landscape for semiconductor equipment market"
      (fun _ => HttpOutcome.raised "timeout")).2.2.2.search_success_rate = 1 ∧
    (1 : ℚ) ≠ 0 :=
  ⟨(runContextMetrics_all_fail
      "Analyze competitive landscape for semiconductor equipment market"
      (fun _ => HttpOutcome.raised "timeout") (fun _ => rfl)).2.2, by norm_num⟩

/-- C3 (amended): if every search call fails (non-2xx status, thrown
fault or timeout), the web intelligence's data-quality score and the
metrics' data quality are 0, the search success rate is 1 (the failures
are converted to data before the fan-out layer's exception check, so no
query is recorded as failed) and the workflow still reaches finalization
with a structurally complete report; the context stage reports success
because the context agent's graph always completes. -/
theorem all_searches_fail_degradation (user_input : String) (respond : String → HttpOutcome)
    (hfail : ∀ q, (respond q).isFailure = true)
    (sa ra : Bool) (sc : Except String ℕ) (rr : AgentResult) (d1 d2 d3 d4 : ℚ) :
    (runContextMetrics user_input respond).2.2.1.data_quality_score = 0 ∧
    (runContextMetrics user_input respond).2.2.2.data_quality = 0 ∧
    (runContextMetrics user_input respond).2.2.2.search_success_rate = 1 ∧
    (runWorkflow ⟨true, ⟨true, ""⟩, sa, sc, ra, rr, d1, d2, d3, d4⟩).final_output.isSome
      = true := by
  obtain ⟨h1, h2, h3⟩ := runContextMetrics_all_fail user_input respond hfail
  exact ⟨h1, h2, h3, finalize_final_output _ _⟩

/-- C3 witness: the scenario-C run with each of the 15 calls timing out. -/
theorem all_searches_fail_degradation_witness :
    (runContextMetrics "Analyze competitive landscape for semiconductor equipment market"
      (fun _ => HttpOutcome.raised "timed out")).2.2.1.data_quality_score = 0 ∧
    (runContextMetrics "Analyze competitive landscape for semiconductor equipment market"
      (fun _ => HttpOutcome.raised "timed out")).2.2.2.data_quality = 0 ∧
    (runContextMetrics "Analyze competitive landscape for semiconductor equipment market"
      (fun _ => HttpOutcome.raised "timed out")).2.2.2.search_success_rate = 1 ∧
    (runWorkflow ⟨true, ⟨true, ""⟩, true, .ok 3, true, ⟨true, ""⟩,
      0, 0, 0, 0⟩).final_output.isSome = true :=
  all_searches_fail_degradation "Analyze competitive landscape for semiconductor equipment market"
    (fun _ => HttpOutcome.raised "timed out") (fun _ => rfl)
    true true (.ok 3) ⟨true, ""⟩ 0 0 0 0
